import Mathlib

set_option maxRecDepth 100000

/-!
Shallow embedding of the message-routing core of
`backend/src/agents/todo_agent.py` (class `TodoAgent`).

Python strings are modelled as lists of characters (`Str`), and the
Python string operations used by the agent (`in`, `startswith`, `lower`,
`strip`, `split`, `find`, `replace`, slicing) are given explicit
executable definitions below, restricted to the ASCII behaviour the
agent's keyword tables rely on.  The outbound chat-completion call made
through the OpenAI client in `_process_with_ai` is modelled as an oracle
`AiOracle` returning either content or an exception, and
`random.choice` in `_handle_general_conversation` is modelled by an
arbitrary natural number index reduced modulo the pool size.
-/

/-- A Python string, as its list of characters. -/
abbrev Str := List Char

/-- The characters of a Lean string literal, used to transcribe the
Python string literals of the source. -/
def chars (s : String) : Str := s.data

/-- Python whitespace test (`str.strip` / `str.split` with no
arguments), restricted to the ASCII whitespace characters. -/
def pyIsSpace (c : Char) : Bool :=
  c == ' ' || c == '\t' || c == '\n' || c == '\r' || c == '\x0b' || c == '\x0c'

/-- ASCII case folding of one character, as done by `str.lower`. -/
def lowerChar (c : Char) : Char :=
  if 'A' ≤ c ∧ c ≤ 'Z' then Char.ofNat (c.toNat + 32) else c

/-- `message.lower()` (ASCII fragment). -/
def pyLower (s : Str) : Str := s.map lowerChar

/-- `message.strip()`: remove leading and trailing whitespace. -/
def pyStrip (s : Str) : Str :=
  ((s.dropWhile pyIsSpace).reverse.dropWhile pyIsSpace).reverse

/-- `s.startswith(pat)`: `beginsWith pat s` is true when `pat` is a
prefix of `s`. -/
def beginsWith : Str → Str → Bool
  | [], _ => true
  | _ :: _, [] => false
  | p :: ps, c :: cs => p == c && beginsWith ps cs

/-- Python's substring containment `pat in s` is `hasSub s pat`. -/
def hasSub : Str → Str → Bool
  | [], pat => pat.isEmpty
  | c :: rest, pat => beginsWith pat (c :: rest) || hasSub rest pat

/-- `any(w in m for w in ws)`, the keyword tests of the agent. -/
def anyIn (ws : List Str) (m : Str) : Bool := ws.any (fun w => hasSub m w)

/-- Accumulator pass of `str.split()` with no separator: whitespace
runs are collapsed and no empty tokens are produced. -/
def tokensAux : Str → Str → List Str
  | [], acc => if acc.isEmpty then [] else [acc.reverse]
  | c :: rest, acc =>
    if pyIsSpace c then
      if acc.isEmpty then tokensAux rest [] else acc.reverse :: tokensAux rest []
    else tokensAux rest (c :: acc)

/-- `message.split()` with no arguments. -/
def pySplitWs (s : Str) : List Str := tokensAux s []

/-- Helper for `str.find`: index of the first occurrence of `pat`,
counting from `i`. -/
def findAux : Str → Str → Nat → Option Nat
  | [], pat, i => if pat.isEmpty then some i else none
  | c :: rest, pat, i =>
    if beginsWith pat (c :: rest) then some i else findAux rest pat (i + 1)

/-- `s.find(pat, start)`, with `none` for Python's `-1`. -/
def pyFind (s pat : Str) (start : Nat) : Option Nat :=
  (findAux (s.drop start) pat 0).map (fun j => start + j)

/-- `s.split(pat, 1)`: at most one split, as used by
`_extract_todo_title`. -/
def pySplit1 (s pat : Str) : List Str :=
  match pyFind s pat 0 with
  | some i => [s.take i, s.drop (i + pat.length)]
  | none => [s]

/-- Fuelled kernel of `str.replace`: left-to-right, non-overlapping
replacement of a non-empty pattern.  The fuel is the length of the
scanned string, which the scan never exhausts. -/
def pyReplaceFuel (pat rep : Str) : Nat → Str → Str
  | _, [] => []
  | 0, s => s
  | fuel + 1, c :: rest =>
    if !pat.isEmpty && beginsWith pat (c :: rest) then
      rep ++ pyReplaceFuel pat rep fuel ((c :: rest).drop pat.length)
    else
      c :: pyReplaceFuel pat rep fuel rest

/-- `s.replace(pat, rep)` for the non-empty patterns the agent uses. -/
def pyReplace (s pat rep : Str) : Str := pyReplaceFuel pat rep s.length s

/-! ## Intent classification (`_is_todo_command`, `_is_general_conversation`) -/

/-- The fixed keyword table of `TodoAgent._is_todo_command`. -/
def todo_keywords : List Str :=
  [chars "create", chars "add", chars "new", chars "make", chars "todo", chars "task",
   chars "delete", chars "remove", chars "complete", chars "finish", chars "done",
   chars "mark", chars "show", chars "list", chars "view", chars "get"]

/-- `TodoAgent._is_todo_command`: any todo keyword occurring as a
substring of the lowered, stripped message. -/
def is_todo_command (message_lower : Str) : Bool :=
  todo_keywords.any (fun k => hasSub message_lower k)

/-- The fixed small-talk keyword table of
`TodoAgent._is_general_conversation` (transcribed in source order,
including the duplicated `dream`). -/
def general_keywords : List Str :=
  [chars "hi", chars "hello", chars "hey", chars "greetings", chars "good morning",
   chars "good afternoon", chars "good evening", chars "how are you", chars "what's up",
   chars "howdy", chars "sup", chars "thanks", chars "thank you", chars "bye",
   chars "goodbye", chars "see you", chars "later", chars "how can you help",
   chars "what can you do", chars "help", chars "who are you", chars "what are you",
   chars "tell me about yourself", chars "introduce yourself", chars "nice to meet you",
   chars "pleased to meet you", chars "how's it going", chars "what's new",
   chars "how have you been", chars "long time no see", chars "what do you think",
   chars "in your opinion", chars "do you like", chars "favorite", chars "hobby",
   chars "interest", chars "passion", chars "dream", chars "goal", chars "wish",
   chars "weather", chars "time", chars "date", chars "day", chars "today",
   chars "tomorrow", chars "yesterday", chars "weekend", chars "vacation",
   chars "holiday", chars "birthday", chars "celebration", chars "party", chars "fun",
   chars "joke", chars "laugh", chars "smile", chars "happy", chars "sad",
   chars "angry", chars "excited", chars "bored", chars "tired", chars "hungry",
   chars "thirsty", chars "sleepy", chars "awake", chars "dream", chars "nightmare",
   chars "music", chars "song", chars "movie", chars "film", chars "book",
   chars "game", chars "sport", chars "food", chars "drink", chars "color",
   chars "animal", chars "place", chars "country", chars "city", chars "travel",
   chars "adventure", chars "story", chars "memory", chars "experience"]

/-- The interrogative-word table of `_is_general_conversation`; each
entry already carries its trailing space, as in the source. -/
def question_words : List Str :=
  [chars "who ", chars "what ", chars "where ", chars "when ", chars "why ",
   chars "how ", chars "which ", chars "whose "]

/-- `TodoAgent._is_general_conversation`: a small-talk keyword
substring, an anchored interrogative word (string start, or preceded by
a space), or a token count of at most 3. -/
def is_general_conversation (message_lower : Str) : Bool :=
  general_keywords.any (fun k => hasSub message_lower k) ||
  question_words.any (fun w =>
    beginsWith w message_lower || hasSub message_lower (' ' :: w)) ||
  decide ((pySplitWs message_lower).length ≤ 3)

/-- The three top-level intents of the specification's data model. -/
inductive Intent
  | todoCommand
  | generalConversation
  | other
deriving DecidableEq

/-- The classification the router's cascade in `process_message`
implements on the lowered, stripped message: todo keywords first, then
general conversation, else other. -/
def classify (message_lower : Str) : Intent :=
  if is_todo_command message_lower then Intent.todoCommand
  else if is_general_conversation message_lower then Intent.generalConversation
  else Intent.other

/-! ## Todo sub-intents (`_handle_todo_command`) -/

/-- The create verbs of `_handle_todo_command`'s first branch. -/
def createVerbs : List Str := [chars "create", chars "add", chars "new", chars "make"]

/-- The viewing verbs of the second branch. -/
def listVerbs : List Str := [chars "show", chars "list", chars "view", chars "get"]

/-- The completion verbs of the third branch. -/
def completeVerbs : List Str := [chars "complete", chars "finish", chars "done", chars "mark"]

/-- The deletion verbs of the fourth branch. -/
def deleteVerbs : List Str := [chars "delete", chars "remove"]

/-- The todo nouns co-occurring with the create, complete and delete
verbs. -/
def todoNouns : List Str := [chars "todo", chars "task"]

/-- The todo nouns of the viewing branch, which also accepts the
plurals. -/
def listNouns : List Str := [chars "todo", chars "task", chars "todos", chars "tasks"]

/-- The acknowledgement of the create branch. -/
def createAck : Str :=
  chars "I can help you create a todo! In a full implementation, I would create a todo based on your request."

/-- The acknowledgement of the viewing branch. -/
def listAck : Str :=
  chars "I can help you view your todos! In a full implementation, I would show your todo list."

/-- The acknowledgement of the completion branch. -/
def completeAck : Str :=
  chars "I can help you mark a todo as complete! In a full implementation, I would update the todo status."

/-- The acknowledgement of the deletion branch. -/
def deleteAck : Str :=
  chars "I can help you delete a todo! In a full implementation, I would remove the todo."

/-- The acknowledgement of the final `else` branch. -/
def unrecognizedAck : Str :=
  chars "I can help you manage your todos! Try saying things like 'Create a todo to buy groceries' or 'Show me my todos'."

/-- `TodoAgent._handle_todo_command` (its unused `user_id_str`
parameter is dropped): the four verb/noun co-occurrence branches in
source order, else the generic acknowledgement. -/
def handle_todo_command (message_lower : Str) : Str :=
  if anyIn createVerbs message_lower && anyIn todoNouns message_lower then createAck
  else if anyIn listVerbs message_lower && anyIn listNouns message_lower then listAck
  else if anyIn completeVerbs message_lower && anyIn todoNouns message_lower then completeAck
  else if anyIn deleteVerbs message_lower && anyIn todoNouns message_lower then deleteAck
  else unrecognizedAck

/-- The five todo sub-intents of the specification's data model. -/
inductive TodoSubIntent
  | create
  | listTodos
  | complete
  | deleteTodo
  | unrecognized
deriving DecidableEq

/-- `resolveTodoSubIntent` of the specification (section 4.2): the same
first-match cascade as `_handle_todo_command`, returning the sub-intent
tag instead of its response. -/
def resolveTodoSubIntent (message_lower : Str) : TodoSubIntent :=
  if anyIn createVerbs message_lower && anyIn todoNouns message_lower then TodoSubIntent.create
  else if anyIn listVerbs message_lower && anyIn listNouns message_lower then TodoSubIntent.listTodos
  else if anyIn completeVerbs message_lower && anyIn todoNouns message_lower then TodoSubIntent.complete
  else if anyIn deleteVerbs message_lower && anyIn todoNouns message_lower then TodoSubIntent.deleteTodo
  else TodoSubIntent.unrecognized

/-- The fixed response template keyed by sub-intent. -/
def subIntentResponse : TodoSubIntent → Str
  | TodoSubIntent.create => createAck
  | TodoSubIntent.listTodos => listAck
  | TodoSubIntent.complete => completeAck
  | TodoSubIntent.deleteTodo => deleteAck
  | TodoSubIntent.unrecognized => unrecognizedAck

/-! ## Offline responder (`_handle_general_conversation`,
`_handle_offline_fallback`) -/

/-- Greeting reply of `_handle_general_conversation`. -/
def greetingReply : Str :=
  chars "Hello! I'm your todo assistant. I can help you manage your tasks and have a chat too! How can I help you today?"

/-- Reply to `how are you`. -/
def howAreYouReply : Str :=
  chars "I'm doing great, thanks for asking! I'm here and ready to help you with your todos or just chat. What's on your mind?"

/-- Reply to thanks. -/
def thanksReply : Str :=
  chars "You're welcome! I'm always here to help with your todos or chat. Is there anything else I can assist you with?"

/-- Reply to goodbyes. -/
def goodbyeReply : Str :=
  chars "Goodbye! Don't forget to check your todos. Come back anytime!"

/-- Reply to help or about questions (the triple-quoted block of the
source). -/
def helpReply : Str :=
  chars "I'm your friendly todo assistant! I can help you:\n\n📝 **Todo Management:**\n• Create new todos: \"Create a todo to buy groceries\"\n• View your todos: \"Show me my todos\"\n• Mark complete: \"Mark todo abc-123 as complete\"\n• Delete todos: \"Delete todo abc-123\"\n\n💬 **Chat with me:**\n• Ask questions, tell jokes, or just say hi!\n• I can talk about various topics\n\nWhat would you like to do?"

/-- Reply to identity questions. -/
def identityReply : Str :=
  chars "I'm your personal todo assistant and chat companion! I help you manage your tasks while also being here for friendly conversation. I love helping people stay organized and productive!"

/-- Reply to weather or time questions. -/
def weatherReply : Str :=
  chars "I don't have access to current weather or time data, but I can definitely help you manage your todos and chat about other things! What's on your agenda today?"

/-- Reply to joke requests. -/
def jokeReply : Str :=
  chars "Why did the todo list go to therapy? It had too many unresolved issues! 😄 What else can I help you with?"

/-- The `responses` pool that `random.choice` draws the default reply
from. -/
def fillerPool : List Str :=
  [chars "That's interesting! Tell me more about that.",
   chars "I love chatting! What's been happening with you?",
   chars "Sounds good! How else can I help you today?",
   chars "I'm all ears! What's next on your mind?",
   chars "Great to hear from you! What else is going on?",
   chars "I enjoy our conversations! What's new with you?"]

/-- `TodoAgent._handle_general_conversation`: the ordered keyword
cascade over the lowered, stripped message, with `random.choice` on the
pool modelled by an arbitrary index `rnd` taken modulo the pool size. -/
def handle_general_conversation (message : Str) (rnd : Nat) : Str :=
  let message_lower := pyStrip (pyLower message)
  if anyIn [chars "hi", chars "hello", chars "hey", chars "greetings", chars "howdy",
      chars "sup"] message_lower then greetingReply
  else if hasSub message_lower (chars "how are you") ||
      hasSub message_lower (chars "how's it going") then howAreYouReply
  else if anyIn [chars "thanks", chars "thank you", chars "thx", chars "ty"]
      message_lower then thanksReply
  else if anyIn [chars "bye", chars "goodbye", chars "see you", chars "later",
      chars "cya"] message_lower then goodbyeReply
  else if anyIn [chars "help", chars "what can you do", chars "how can you help"]
      message_lower then helpReply
  else if anyIn [chars "who are you", chars "what are you", chars "introduce yourself",
      chars "tell me about yourself"] message_lower then identityReply
  else if anyIn [chars "weather", chars "time", chars "date", chars "day"]
      message_lower then weatherReply
  else if anyIn [chars "joke", chars "funny", chars "laugh"] message_lower then jokeReply
  else fillerPool.get ⟨rnd % 6, Nat.mod_lt _ (by decide)⟩

/-- Offline-fallback reply of the create branch. -/
def offlineCreateReply : Str :=
  chars "I'd love to create a todo for you, but I'm currently in offline mode. Please try again when the AI service is available."

/-- Offline-fallback reply of the viewing branch. -/
def offlineShowReply : Str :=
  chars "I'd love to show you your todos, but I'm currently in offline mode. Please try again when the AI service is available."

/-- Offline-fallback reply of the completion branch. -/
def offlineUpdateReply : Str :=
  chars "I'd love to update your todos, but I'm currently in offline mode. Please try again when the AI service is available."

/-- Offline-fallback reply of the deletion branch. -/
def offlineDeleteReply : Str :=
  chars "I'd love to delete that todo, but I'm currently in offline mode. Please try again when the AI service is available."

/-- The generic offline-mode reply of `_handle_offline_fallback`'s
final `else`. -/
def offlineGenericReply : Str :=
  chars "I'm currently in offline mode due to connectivity issues. I can still help with basic todo management when the AI service is back online. What would you like to chat about in the meantime?"

/-- `TodoAgent._handle_offline_fallback`: a lightweight keyword re-check
over the lowered, stripped message, else the generic offline reply. -/
def handle_offline_fallback (message : Str) : Str :=
  let message_lower := pyStrip (pyLower message)
  if anyIn [chars "create", chars "add", chars "new"] message_lower &&
      hasSub message_lower (chars "todo") then offlineCreateReply
  else if anyIn [chars "show", chars "list", chars "view", chars "get"] message_lower then
    offlineShowReply
  else if anyIn [chars "complete", chars "finish", chars "done", chars "mark"]
      message_lower then offlineUpdateReply
  else if anyIn [chars "delete", chars "remove"] message_lower then offlineDeleteReply
  else offlineGenericReply

/-- The default offline reply of `process_message`'s final return. -/
def offlineDefaultHelp : Str :=
  chars "I can help you manage your todos! Try saying things like:\n- 'Create a todo to buy groceries'\n- 'Show me my todos'\n- 'Mark todo abc-123 as complete'\n- 'Delete todo abc-123'"

/-! ## AI backend (`_call_openrouter_api`, `_process_with_ai`) and the
agent state -/

/-- The exception kinds a chat-completion attempt can raise
(`httpx.TimeoutException`, `httpx.RequestError`,
`httpx.HTTPStatusError`, anything else). -/
inductive AiError
  | timeout
  | network
  | httpStatus (code : Nat)
  | unexpected
deriving DecidableEq

/-- The remote chat-completion call of `_process_with_ai`
(`self.client.chat.completions.create`), modelled as an oracle from the
user id string and the raw message to either the model's content or a
raised exception. -/
abbrev AiOracle := Str → Str → Except AiError Str

/-- The `message.content` part of the chat-completions response shape
`{choices: [{message: {content: string}}]}`. -/
structure ChatMessage where
  content : Str
deriving DecidableEq

/-- One entry of the `choices` array. -/
structure ChatChoice where
  message : ChatMessage
deriving DecidableEq

/-- The response dictionary `_call_openrouter_api` returns. -/
structure ApiResult where
  choices : List ChatChoice
deriving DecidableEq

/-- The transport outcomes of the single `httpx` request in
`_call_openrouter_api`: a 2xx body, or one of its four `except`
clauses. -/
inductive TransportOutcome
  | success (body : ApiResult)
  | timeout
  | networkError
  | httpStatus (code : Nat)
  | otherError
deriving DecidableEq

/-- The timeout apology of `_call_openrouter_api`. -/
def timeoutApology : Str :=
  chars "The request timed out. Please check your internet connection and try again. I can still help you manage your todos if you'd like!"

/-- The network-error apology of `_call_openrouter_api`. -/
def networkApology : Str :=
  chars "I'm currently unable to connect to my AI services due to a network issue. I can help you manage your todos directly though. What would you like to do?"

/-- The non-2xx apology of `_call_openrouter_api`, embedding the
numeric status code as the f-string does. -/
def httpApology (code : Nat) : Str :=
  chars "API Error " ++ ((Nat.repr code).data ++
    chars ": I'm having trouble connecting to my AI services. What would you like to do with your todos?")

/-- The generic apology of `_call_openrouter_api`'s last `except`. -/
def unexpectedApology : Str :=
  chars "I'm experiencing an issue connecting to my AI services. What would you like to do with your todos?"

/-- `TodoAgent._call_openrouter_api`: on a 2xx response the parsed
body, and on each transport failure a response-shaped dictionary
holding the corresponding apology.  `process_message` never invokes
this helper. -/
def call_openrouter_api : TransportOutcome → ApiResult
  | TransportOutcome.success body => body
  | TransportOutcome.timeout => { choices := [{ message := { content := timeoutApology } }] }
  | TransportOutcome.networkError => { choices := [{ message := { content := networkApology } }] }
  | TransportOutcome.httpStatus code => { choices := [{ message := { content := httpApology code } }] }
  | TransportOutcome.otherError => { choices := [{ message := { content := unexpectedApology } }] }

/-- The content of the first choice of a response dictionary, as
`response["choices"][0]["message"]["content"]` reads it. -/
def apiContent (r : ApiResult) : Str :=
  match r.choices with
  | [] => []
  | c :: _ => c.message.content

/-- The fields `TodoAgent.__init__` sets.  `user_id` values are
modelled as strings (`str(user_id)` is the identity here). -/
structure TodoAgent where
  offline_mode : Bool
  current_user_id : Option Str
  api_key : Option Str
  model : Str
  base_url : Str
deriving DecidableEq

/-- Python truthiness of `os.getenv("OPENROUTER_API_KEY")`: false for a
missing key and for the empty string. -/
def pyTruthy : Option Str → Bool
  | none => false
  | some s => !s.isEmpty

/-- `TodoAgent.__init__`: offline mode is the absence of a truthy API
key; the model and base URL are fixed; no user is current yet. -/
def TodoAgent.init (key : Option Str) : TodoAgent :=
  { offline_mode := !pyTruthy key
    current_user_id := none
    api_key := key
    model := chars "openai/gpt-4o-mini"
    base_url := chars "https://openrouter.ai/api/v1" }

/-- `TodoAgent._process_with_ai`: returns the reply together with the
number of chat-completion attempts made (0 or 1).  In offline mode no
attempt is made; an exception from the attempt falls back to
`_handle_offline_fallback`; a successful attempt's content is returned
verbatim. -/
def process_with_ai (a : TodoAgent) (oracle : AiOracle) (user_id_str message : Str) :
    Str × Nat :=
  if a.offline_mode then (handle_offline_fallback message, 0)
  else
    match oracle user_id_str message with
    | Except.ok content => (content, 1)
    | Except.error _ => (handle_offline_fallback message, 1)

/-- What one `process_message` call produces: the reply, the agent
state after the call, and the number of chat-completion attempts. -/
structure RouteResult where
  response : Str
  agent : TodoAgent
  aiCalls : Nat
deriving DecidableEq

/-- `TodoAgent.process_message`: stores the caller's user id in
`current_user_id`, lowers and strips the message, and dispatches in
source order — todo command, then general conversation (AI when
online), then AI for anything else when online, else the default
offline help text. -/
def process_message (a : TodoAgent) (oracle : AiOracle) (rnd : Nat)
    (user_id message : Str) : RouteResult :=
  let a2 := { a with current_user_id := some user_id }
  let message_lower := pyStrip (pyLower message)
  if is_todo_command message_lower then
    { response := handle_todo_command message_lower, agent := a2, aiCalls := 0 }
  else if is_general_conversation message_lower then
    if !a2.offline_mode then
      let r := process_with_ai a2 oracle user_id message
      { response := r.1, agent := a2, aiCalls := r.2 }
    else
      { response := handle_general_conversation message rnd, agent := a2, aiCalls := 0 }
  else if !a2.offline_mode then
    let r := process_with_ai a2 oracle user_id message
    { response := r.1, agent := a2, aiCalls := r.2 }
  else
    { response := offlineDefaultHelp, agent := a2, aiCalls := 0 }

/-! ## Title extraction (`_extract_todo_title`) -/

/-- The stop-word list of `_extract_todo_title`'s fallback. -/
def words_to_remove : List Str :=
  [chars "create", chars "add", chars "new", chars "make", chars "todo", chars "to",
   chars "a", chars "an", chars "the"]

/-- The fallback's sequential `title.replace(word, ' ')` over the
stop-word list, on the original-case message. -/
def stripCommonWords (message : Str) : Str :=
  words_to_remove.foldl (fun t w => pyReplace t w [' ']) message

/-- The fallback of `_extract_todo_title`: `title.strip() or None`. -/
def extract_title_fallback (message : Str) : Option Str :=
  let t := pyStrip (stripCommonWords message)
  if t.isEmpty then none else some t

/-- `TodoAgent._extract_todo_title`: the `todo to` branch tests the
lowered message but splits the original one; the `todo:` branch tests
and splits the original message; the `add`/`to` branch finds indices in
the lowered message and slices the original one; a branch whose split
or find fails, and a message matching no branch, fall through to the
stop-word fallback. -/
def extract_todo_title (message : Str) : Option Str :=
  let message_lower := pyLower message
  if hasSub message_lower (chars "todo to") then
    let parts := pySplit1 message (chars "todo to")
    if 1 < parts.length then some (pyStrip (parts.getD 1 []))
    else extract_title_fallback message
  else if hasSub message (chars "todo:") then
    let parts := pySplit1 message (chars "todo:")
    if 1 < parts.length then some (pyStrip (parts.getD 1 []))
    else extract_title_fallback message
  else if hasSub message_lower (chars "add") && hasSub message_lower (chars "to") then
    match pyFind message_lower (chars "add") 0 with
    | some add_idx =>
      match pyFind message_lower (chars "to") add_idx with
      | some to_idx =>
        some (pyStrip ((message.drop (add_idx + 3)).take (to_idx - (add_idx + 3))))
      | none => extract_title_fallback message
    | none => extract_title_fallback message
  else extract_title_fallback message

/-- One pattern step of the specification's reading of `extractTitle`
(section 4.3): the trimmed text after the first occurrence of `pat`,
or `none` when `pat` is absent or that text is empty. -/
def specPatternTail (message pat : Str) : Option Str :=
  match pyFind (pyLower message) pat 0 with
  | some i =>
    let t := pyStrip (message.drop (i + pat.length))
    if t.isEmpty then none else some t
  | none => none

/-- The specification's third pattern: the trimmed text strictly
between the first `add` and the first `to` after it, or `none` when
absent or empty. -/
def specBetweenAddTo (message : Str) : Option Str :=
  let ml := pyLower message
  match pyFind ml (chars "add") 0 with
  | some ai =>
    match pyFind ml (chars "to") (ai + 3) with
    | some ti =>
      let t := pyStrip ((message.drop (ai + 3)).take (ti - (ai + 3)))
      if t.isEmpty then none else some t
    | none => none
  | none => none

/-- `extractTitle` as the specification words it: the three literal
patterns in order, returning the first non-empty match, else the
stop-word fallback.  Stated for comparison with `extract_todo_title`,
the definition translated from the source. -/
def specExtractTitle (message : Str) : Option Str :=
  match specPatternTail message (chars "todo to") with
  | some t => some t
  | none =>
    match specPatternTail message (chars "todo:") with
    | some t => some t
    | none =>
      match specBetweenAddTo message with
      | some t => some t
      | none => extract_title_fallback message

/-! ## Fixed response inventories and concrete fixtures -/

/-- The five fixed acknowledgements `_handle_todo_command` can
return. -/
def todoAckList : List Str :=
  [createAck, listAck, completeAck, deleteAck, unrecognizedAck]

/-- The eight fixed canned replies of `_handle_general_conversation`'s
keyword cascade. -/
def generalCannedList : List Str :=
  [greetingReply, howAreYouReply, thanksReply, goodbyeReply, helpReply,
   identityReply, weatherReply, jokeReply]

/-- Every string an offline-mode `process_message` call can return:
the todo acknowledgements, the canned small-talk replies, the filler
pool, and the default offline help text. -/
def offlineResponses : List Str :=
  todoAckList ++ generalCannedList ++ fillerPool ++ [offlineDefaultHelp]

/-- An oracle whose every attempt succeeds with empty content. -/
def constOracle : AiOracle := fun _ _ => Except.ok []

/-- An oracle whose every attempt raises a timeout. -/
def timeoutOracle : AiOracle := fun _ _ => Except.error AiError.timeout

/-! ## Helper lemmas -/

/-- A list begins with itself, whatever follows. -/
lemma beginsWith_refl_append (p t : Str) : beginsWith p (p ++ t) = true := by
  induction p with
  | nil => rfl
  | cons c cs ih => simp [beginsWith, ih]

/-- A pattern occurs in itself followed by anything. -/
lemma hasSub_append_here (p t : Str) : hasSub (p ++ t) p = true := by
  cases p with
  | nil => cases t <;> simp [hasSub, beginsWith]
  | cons c cs => simp [hasSub, beginsWith, beginsWith_refl_append]

/-- Occurrence is preserved by prepending. -/
lemma hasSub_append_left (x r p : Str) (h : hasSub r p = true) :
    hasSub (x ++ r) p = true := by
  induction x with
  | nil => simpa using h
  | cons c cs ih => simp [hasSub, ih]

/-- `_handle_todo_command` never returns an empty string. -/
lemma handle_todo_command_ne (m : Str) : handle_todo_command m ≠ [] := by
  unfold handle_todo_command
  repeat' split
  all_goals decide

/-- `_handle_todo_command` always returns one of its five fixed
acknowledgements. -/
lemma handle_todo_command_mem (m : Str) : handle_todo_command m ∈ todoAckList := by
  unfold handle_todo_command
  repeat' split
  all_goals decide

/-- `_handle_todo_command` is the response table applied to the
specification's sub-intent resolution. -/
lemma handle_todo_command_eq (m : Str) :
    handle_todo_command m = subIntentResponse (resolveTodoSubIntent m) := by
  unfold handle_todo_command resolveTodoSubIntent
  repeat' split
  all_goals rfl

/-- `_handle_offline_fallback` never returns an empty string. -/
lemma handle_offline_fallback_ne (m : Str) : handle_offline_fallback m ≠ [] := by
  simp only [handle_offline_fallback]
  repeat' split
  all_goals decide

/-- Every canned or filler reply is non-empty. -/
lemma general_replies_ne : ∀ x ∈ generalCannedList ++ fillerPool, x ≠ [] := by decide

/-- `_handle_general_conversation` returns a canned reply or a pool
member. -/
lemma handle_general_conversation_mem (m : Str) (rnd : Nat) :
    handle_general_conversation m rnd ∈ generalCannedList ++ fillerPool := by
  simp only [handle_general_conversation]
  repeat' split
  all_goals first
    | decide
    | exact List.mem_append_right _ (List.get_mem _ _ _)

/-- `_handle_general_conversation` never returns an empty string. -/
lemma handle_general_conversation_ne (m : Str) (rnd : Nat) :
    handle_general_conversation m rnd ≠ [] :=
  general_replies_ne _ (handle_general_conversation_mem m rnd)

/-- The default offline help text is non-empty. -/
lemma offlineDefaultHelp_ne : offlineDefaultHelp ≠ [] := by decide

/-- When every successful oracle result is non-empty,
`_process_with_ai` returns a non-empty reply. -/
lemma process_with_ai_ne (a : TodoAgent) (oracle : AiOracle) (u m : Str)
    (h : ∀ u' m' c, oracle u' m' = Except.ok c → c ≠ []) :
    (process_with_ai a oracle u m).1 ≠ [] := by
  unfold process_with_ai
  split
  · exact handle_offline_fallback_ne m
  · split
    · rename_i content heq
      exact h _ _ _ heq
    · exact handle_offline_fallback_ne m

/-- The post-state of `process_message` is the input agent with
`current_user_id` overwritten. -/
lemma process_message_agent (a : TodoAgent) (oracle : AiOracle) (rnd : Nat)
    (uid m : Str) :
    (process_message a oracle rnd uid m).agent = { a with current_user_id := some uid } := by
  simp only [process_message]
  repeat' split
  all_goals rfl

/-- A false `_is_todo_command` means no todo keyword occurs. -/
lemma is_todo_command_keywords (ml : Str) (h : is_todo_command ml = false) :
    ∀ k ∈ todo_keywords, hasSub ml k = false := by
  intro k hk
  by_contra hc
  have h1 : hasSub ml k = true := by
    revert hc; cases hasSub ml k <;> simp
  have h2 : is_todo_command ml = true := by
    unfold is_todo_command
    exact List.any_eq_true.mpr ⟨k, hk, h1⟩
  rw [h] at h2
  exact absurd h2 (by decide)

/-! ## Claim theorems -/

/-- Claim C3: classification of a lowered, trimmed message follows the
ordered first-match rules — any todo keyword substring gives
`todoCommand`; otherwise a small-talk keyword, an anchored
interrogative, or a token count of at most 3 gives
`generalConversation`; otherwise `other` — and in particular
`"create a todo to buy milk"` is a todo command, `"hi there"` is
general conversation, and `"xyz123"` is general conversation through
the token-count rule. -/
theorem classify_first_match :
    (∀ ml k, k ∈ todo_keywords → hasSub ml k = true →
      classify ml = Intent.todoCommand) ∧
    (∀ ml, is_todo_command ml = false → is_general_conversation ml = true →
      classify ml = Intent.generalConversation) ∧
    (∀ ml, is_todo_command ml = false → (pySplitWs ml).length ≤ 3 →
      classify ml = Intent.generalConversation) ∧
    (∀ ml, is_todo_command ml = false → is_general_conversation ml = false →
      classify ml = Intent.other) ∧
    classify (chars "create a todo to buy milk") = Intent.todoCommand ∧
    classify (chars "hi there") = Intent.generalConversation ∧
    classify (chars "xyz123") = Intent.generalConversation := by
  refine ⟨?_, ?_, ?_, ?_, by decide, by decide, by decide⟩
  · intro ml k hk hs
    have h : is_todo_command ml = true := by
      unfold is_todo_command
      exact List.any_eq_true.mpr ⟨k, hk, hs⟩
    simp [classify, h]
  · intro ml h1 h2
    simp [classify, h1, h2]
  · intro ml h1 h2
    have hg : is_general_conversation ml = true := by
      unfold is_general_conversation
      simp [h2]
    simp [classify, h1, hg]
  · intro ml h1 h2
    simp [classify, h1, h2]

/-- Claim C3 witness: the todo-keyword rule at a concrete input. -/
theorem classify_first_match_witness :
    classify (chars "show me everything please") = Intent.todoCommand :=
  classify_first_match.1 (chars "show me everything please") (chars "show")
    (by decide) (by decide)

/-- Claim C4: a message classified as a todo command is answered with
the fixed acknowledgement from sub-intent resolution and the AI backend
is never invoked, whatever the mode of the agent. -/
theorem todo_command_never_calls_ai (a : TodoAgent) (oracle : AiOracle) (rnd : Nat)
    (uid m : Str) (h : is_todo_command (pyStrip (pyLower m)) = true) :
    (process_message a oracle rnd uid m).response =
      subIntentResponse (resolveTodoSubIntent (pyStrip (pyLower m))) ∧
    (process_message a oracle rnd uid m).aiCalls = 0 := by
  simp [process_message, h, handle_todo_command_eq]

/-- Claim C4 witness: a concrete todo command with an online agent and
a live oracle still makes zero AI calls. -/
theorem todo_command_never_calls_ai_witness :
    (process_message (TodoAgent.init (some (chars "key"))) constOracle 0 (chars "u")
        (chars "create a todo to buy milk")).response =
      subIntentResponse (resolveTodoSubIntent
        (pyStrip (pyLower (chars "create a todo to buy milk")))) ∧
    (process_message (TodoAgent.init (some (chars "key"))) constOracle 0 (chars "u")
        (chars "create a todo to buy milk")).aiCalls = 0 :=
  todo_command_never_calls_ai _ _ 0 _ _ (by decide)

/-- Claim C6: sub-intent resolution is first-match-wins in the order
create, list, complete, delete, else unrecognized; the quoted examples
resolve as stated and map to their fixed templates, and
`_handle_todo_command` is exactly the template of the resolved
sub-intent. -/
theorem todo_subintent_precedence :
    (∀ ml, handle_todo_command ml = subIntentResponse (resolveTodoSubIntent ml)) ∧
    (∀ ml, (anyIn createVerbs ml && anyIn todoNouns ml) = true →
      resolveTodoSubIntent ml = TodoSubIntent.create) ∧
    (∀ ml, (anyIn createVerbs ml && anyIn todoNouns ml) = false →
      (anyIn listVerbs ml && anyIn listNouns ml) = true →
      resolveTodoSubIntent ml = TodoSubIntent.listTodos) ∧
    (∀ ml, (anyIn createVerbs ml && anyIn todoNouns ml) = false →
      (anyIn listVerbs ml && anyIn listNouns ml) = false →
      (anyIn completeVerbs ml && anyIn todoNouns ml) = true →
      resolveTodoSubIntent ml = TodoSubIntent.complete) ∧
    (∀ ml, (anyIn createVerbs ml && anyIn todoNouns ml) = false →
      (anyIn listVerbs ml && anyIn listNouns ml) = false →
      (anyIn completeVerbs ml && anyIn todoNouns ml) = false →
      (anyIn deleteVerbs ml && anyIn todoNouns ml) = true →
      resolveTodoSubIntent ml = TodoSubIntent.deleteTodo) ∧
    (∀ ml, (anyIn createVerbs ml && anyIn todoNouns ml) = false →
      (anyIn listVerbs ml && anyIn listNouns ml) = false →
      (anyIn completeVerbs ml && anyIn todoNouns ml) = false →
      (anyIn deleteVerbs ml && anyIn todoNouns ml) = false →
      resolveTodoSubIntent ml = TodoSubIntent.unrecognized) ∧
    (resolveTodoSubIntent (chars "create a new todo") = TodoSubIntent.create ∧
     handle_todo_command (chars "create a new todo") = createAck) ∧
    (resolveTodoSubIntent (chars "show me my todos") = TodoSubIntent.listTodos ∧
     handle_todo_command (chars "show me my todos") = listAck) ∧
    (resolveTodoSubIntent (chars "mark todo abc as done") = TodoSubIntent.complete ∧
     handle_todo_command (chars "mark todo abc as done") = completeAck) ∧
    (resolveTodoSubIntent (chars "delete that task") = TodoSubIntent.deleteTodo ∧
     handle_todo_command (chars "delete that task") = deleteAck) ∧
    (resolveTodoSubIntent (chars "todo stuff") = TodoSubIntent.unrecognized ∧
     handle_todo_command (chars "todo stuff") = unrecognizedAck) := by
  refine ⟨handle_todo_command_eq, ?_, ?_, ?_, ?_, ?_,
    by decide, by decide, by decide, by decide, by decide⟩
  · intro ml h1
    simp [resolveTodoSubIntent, h1]
  · intro ml h1 h2
    simp [resolveTodoSubIntent, h1, h2]
  · intro ml h1 h2 h3
    simp [resolveTodoSubIntent, h1, h2, h3]
  · intro ml h1 h2 h3 h4
    simp [resolveTodoSubIntent, h1, h2, h3, h4]
  · intro ml h1 h2 h3 h4
    simp [resolveTodoSubIntent, h1, h2, h3, h4]

/-- Claim C6 witness: the create rule at a concrete input. -/
theorem todo_subintent_precedence_witness :
    resolveTodoSubIntent (chars "add a task") = TodoSubIntent.create :=
  todo_subintent_precedence.2.1 (chars "add a task") (by decide)

/-- Claim C7 (amended): a message that is empty after normalisation is
classified as general conversation through the token-count rule — it is
never a todo command, but neither is it the `other` intent the
specification's invariant names. -/
theorem empty_message_general (m : Str) (h : pyStrip (pyLower m) = []) :
    classify (pyStrip (pyLower m)) = Intent.generalConversation ∧
    classify (pyStrip (pyLower m)) ≠ Intent.other ∧
    classify (pyStrip (pyLower m)) ≠ Intent.todoCommand := by
  rw [h]
  exact ⟨by decide, by decide, by decide⟩

/-- Claim C7 witness: a whitespace-only message. -/
theorem empty_message_general_witness :
    classify (pyStrip (pyLower (chars "   "))) = Intent.generalConversation ∧
    classify (pyStrip (pyLower (chars "   "))) ≠ Intent.other ∧
    classify (pyStrip (pyLower (chars "   "))) ≠ Intent.todoCommand :=
  empty_message_general (chars "   ") (by decide)

/-- Claim C7 counterexample: the empty normalised message classifies as
general conversation, not as the `other` intent the claim states. -/
theorem empty_message_not_other :
    classify [] = Intent.generalConversation ∧ classify [] ≠ Intent.other := by
  decide

/-- Claim C8 (amended): `process_message` leaves the mode, credentials,
model and base URL unchanged, but it does mutate per-user state: the
caller's user id is stored in the shared `current_user_id` field. -/
theorem process_message_frame (a : TodoAgent) (oracle : AiOracle) (rnd : Nat)
    (uid m : Str) :
    (process_message a oracle rnd uid m).agent.offline_mode = a.offline_mode ∧
    (process_message a oracle rnd uid m).agent.api_key = a.api_key ∧
    (process_message a oracle rnd uid m).agent.model = a.model ∧
    (process_message a oracle rnd uid m).agent.base_url = a.base_url ∧
    (process_message a oracle rnd uid m).agent.current_user_id = some uid := by
  rw [process_message_agent]
  exact ⟨rfl, rfl, rfl, rfl, rfl⟩

/-- Claim C8 counterexample: a `process_message` call changes the
agent's `current_user_id` field, so the call is not state-preserving. -/
theorem process_message_mutates_state :
    (process_message (TodoAgent.init none) constOracle 0 (chars "u1")
        (chars "hi")).agent.current_user_id
      ≠ (TodoAgent.init none).current_user_id := by
  decide

/-- Claim C1 (amended): `process_message` is a total function (it is
defined for every message and oracle, so nothing escapes to the
caller), and its reply is non-empty provided every successful AI result
is non-empty; in offline mode the reply is non-empty with no proviso.
The unamended claim — non-empty with the AI result fully arbitrary —
fails, because a successful AI call's content is returned verbatim,
including an empty one (see the counterexample). -/
theorem process_message_total_nonempty :
    (∀ (a : TodoAgent) (oracle : AiOracle) (rnd : Nat) (uid m : Str),
      (∀ u' m' c, oracle u' m' = Except.ok c → c ≠ []) →
      (process_message a oracle rnd uid m).response ≠ []) ∧
    (∀ (a : TodoAgent) (oracle : AiOracle) (rnd : Nat) (uid m : Str),
      a.offline_mode = true →
      (process_message a oracle rnd uid m).response ≠ []) := by
  constructor
  · intro a oracle rnd uid m h
    simp only [process_message]
    split
    · exact handle_todo_command_ne _
    · split
      · split
        · exact process_with_ai_ne _ _ _ _ h
        · exact handle_general_conversation_ne _ _
      · split
        · exact process_with_ai_ne _ _ _ _ h
        · exact offlineDefaultHelp_ne
  · intro a oracle rnd uid m hoff
    have hoff2 : ({ a with current_user_id := some uid } : TodoAgent).offline_mode = true :=
      hoff
    simp only [process_message]
    split
    · exact handle_todo_command_ne _
    · split
      · split
        · rename_i hc
          rw [hoff2] at hc
          exact absurd hc (by decide)
        · exact handle_general_conversation_ne _ _
      · split
        · rename_i hc
          rw [hoff2] at hc
          exact absurd hc (by decide)
        · exact offlineDefaultHelp_ne

/-- Claim C1 witness: a concrete online call whose AI attempt raises
still yields a non-empty reply. -/
theorem process_message_total_nonempty_witness :
    (process_message (TodoAgent.init (some (chars "key"))) timeoutOracle 0 (chars "u")
        (chars "hi there")).response ≠ [] :=
  process_message_total_nonempty.1 _ _ 0 _ _
    (fun _ _ _ hc => Except.noConfusion hc)

/-- Claim C1 counterexample: online, a successful AI call with empty
content is returned verbatim, so `process_message` returns the empty
string. -/
theorem process_message_empty_reply :
    (process_message (TodoAgent.init (some (chars "key"))) constOracle 0 (chars "u")
        (chars "hi there")).response = [] := by
  decide

/-- Claim C2 (amended): each simulated transport failure makes
`_call_openrouter_api` yield a non-empty apologetic content string,
with the non-2xx apology embedding the numeric status code; but the
router does not forward that client string — `process_message` never
invokes `_call_openrouter_api`, and when its own AI call raises it
answers with `_handle_offline_fallback` instead. -/
theorem transport_failure_mapping :
    apiContent (call_openrouter_api TransportOutcome.timeout) ≠ [] ∧
    apiContent (call_openrouter_api TransportOutcome.networkError) ≠ [] ∧
    apiContent (call_openrouter_api TransportOutcome.otherError) ≠ [] ∧
    (∀ code : Nat,
      apiContent (call_openrouter_api (TransportOutcome.httpStatus code)) ≠ [] ∧
      hasSub (apiContent (call_openrouter_api (TransportOutcome.httpStatus code)))
        ((Nat.repr code).data) = true) ∧
    (∀ (a : TodoAgent) (oracle : AiOracle) (rnd : Nat) (uid m : Str) (e : AiError),
      a.offline_mode = false → is_todo_command (pyStrip (pyLower m)) = false →
      oracle uid m = Except.error e →
      (process_message a oracle rnd uid m).response = handle_offline_fallback m) := by
  refine ⟨by decide, by decide, by decide, ?_, ?_⟩
  · intro code
    constructor
    · show chars "API Error " ++ ((Nat.repr code).data ++
        chars ": I'm having trouble connecting to my AI services. What would you like to do with your todos?") ≠ []
      intro hne
      have hlen := congrArg List.length hne
      simp only [List.length_append, List.length_nil] at hlen
      have h10 : (chars "API Error ").length = 10 := rfl
      rw [h10] at hlen
      omega
    · exact hasSub_append_left _ _ _ (hasSub_append_here _ _)
  · intro a oracle rnd uid m e hoff htodo herr
    simp [process_message, process_with_ai, htodo, hoff, herr]

/-- Claim C2 witness: the fallback substitution at a concrete timeout. -/
theorem transport_failure_mapping_witness :
    (process_message (TodoAgent.init (some (chars "key"))) timeoutOracle 0 (chars "u")
        (chars "hi there")).response = handle_offline_fallback (chars "hi there") :=
  transport_failure_mapping.2.2.2.2 _ _ 0 _ _ AiError.timeout (by decide) (by decide) rfl

/-- Claim C2 counterexample: on a simulated timeout the router's reply
differs from the client helper's timeout apology, so the client string
is not forwarded unchanged to the caller. -/
theorem router_not_forwarding_client_apology :
    (process_message (TodoAgent.init (some (chars "key"))) timeoutOracle 0 (chars "u")
        (chars "hi there")).response
      ≠ apiContent (call_openrouter_api TransportOutcome.timeout) := by
  decide

/-- A todo acknowledgement is one of the offline-mode responses. -/
lemma mem_offlineResponses_todo {x : Str} (hx : x ∈ todoAckList) :
    x ∈ offlineResponses := by
  unfold offlineResponses
  exact List.mem_append_left _ (List.mem_append_left _ (List.mem_append_left _ hx))

/-- A canned or filler reply is one of the offline-mode responses. -/
lemma mem_offlineResponses_general {x : Str} (hx : x ∈ generalCannedList ++ fillerPool) :
    x ∈ offlineResponses := by
  unfold offlineResponses
  rcases List.mem_append.mp hx with h1 | h2
  · exact List.mem_append_left _ (List.mem_append_left _ (List.mem_append_right _ h1))
  · exact List.mem_append_left _ (List.mem_append_right _ h2)

/-- The default offline help text is one of the offline-mode
responses. -/
lemma mem_offlineResponses_default : offlineDefaultHelp ∈ offlineResponses := by decide

/-- Claim C5: with the agent in offline mode, `process_message` makes
no chat-completion attempt on any input, and every reply is one of the
offline responder's fixed templates or pool members. -/
theorem offline_mode_no_network (a : TodoAgent) (oracle : AiOracle) (rnd : Nat)
    (uid m : Str) (h : a.offline_mode = true) :
    (process_message a oracle rnd uid m).aiCalls = 0 ∧
    (process_message a oracle rnd uid m).response ∈ offlineResponses := by
  have h2 : ({ a with current_user_id := some uid } : TodoAgent).offline_mode = true := h
  constructor
  · simp only [process_message]
    split
    · rfl
    · split
      · split
        · rename_i hc
          rw [h2] at hc
          exact absurd hc (by decide)
        · rfl
      · split
        · rename_i hc
          rw [h2] at hc
          exact absurd hc (by decide)
        · rfl
  · simp only [process_message]
    split
    · exact mem_offlineResponses_todo (handle_todo_command_mem _)
    · split
      · split
        · rename_i hc
          rw [h2] at hc
          exact absurd hc (by decide)
        · exact mem_offlineResponses_general (handle_general_conversation_mem _ _)
      · split
        · rename_i hc
          rw [h2] at hc
          exact absurd hc (by decide)
        · exact mem_offlineResponses_default

/-- Claim C5 witness: a concrete offline agent. -/
theorem offline_mode_no_network_witness :
    (process_message (TodoAgent.init none) constOracle 0 (chars "u")
        (chars "hello")).aiCalls = 0 ∧
    (process_message (TodoAgent.init none) constOracle 0 (chars "u")
        (chars "hello")).response ∈ offlineResponses :=
  offline_mode_no_network _ _ 0 _ _ (by decide)

/-- Claim C9 (amended): `_extract_todo_title` returns the two quoted
examples as claimed; when the `todo to` pattern matches and splits it
returns the trimmed tail even when that tail is empty (rather than
moving on to the next pattern, as the claim's "first non-empty match"
words it); when no pattern matches it applies the stop-word fallback,
which yields `none` exactly when the stripped remainder is empty. -/
theorem extract_title_behavior :
    extract_todo_title (chars "create todo to buy milk") = some (chars "buy milk") ∧
    extract_todo_title (chars "todo: clean house") = some (chars "clean house") ∧
    (∀ m i, hasSub (pyLower m) (chars "todo to") = true →
      pyFind m (chars "todo to") 0 = some i →
      extract_todo_title m = some (pyStrip (m.drop (i + 7)))) ∧
    (∀ m, hasSub (pyLower m) (chars "todo to") = false →
      hasSub m (chars "todo:") = false →
      (hasSub (pyLower m) (chars "add") && hasSub (pyLower m) (chars "to")) = false →
      extract_todo_title m = extract_title_fallback m) ∧
    (∀ m, pyStrip (stripCommonWords m) = [] → extract_title_fallback m = none) := by
  refine ⟨by decide, by decide, ?_, ?_, ?_⟩
  · intro m i hsub hfind
    have hlen : (chars "todo to").length = 7 := rfl
    simp [extract_todo_title, hsub, pySplit1, hfind, hlen]
  · intro m h1 h2 h3
    simp [extract_todo_title, h1, h2, h3]
  · intro m h
    simp [extract_title_fallback, h]

/-- Claim C9 witness: the stop-word fallback erases `"todo to"`
entirely, so the fallback is `none` there. -/
theorem extract_title_behavior_witness :
    extract_title_fallback (chars "todo to") = none :=
  extract_title_behavior.2.2.2.2 (chars "todo to") (by decide)

/-- Claim C9 counterexample: on `"todo to"` the source returns the
empty first match (`some ""`), where the claim's algorithm — first
non-empty pattern match, else the stop-word fallback or `none` —
yields `none`. -/
theorem extract_title_empty_match :
    extract_todo_title (chars "todo to") = some [] ∧
    specExtractTitle (chars "todo to") = none := by
  decide

/-- Claim C10: a message that did not classify as a todo command (the
only way `process_message` reaches the AI path and hence the offline
fallback) cannot satisfy any of `_handle_offline_fallback`'s four
keyword branches, so the fallback returns the single generic
offline-mode string — and therefore so does `process_message` whenever
its AI call raises. -/
theorem offline_fallback_generic (m : Str)
    (h : is_todo_command (pyStrip (pyLower m)) = false) :
    handle_offline_fallback m = offlineGenericReply ∧
    (∀ (a : TodoAgent) (oracle : AiOracle) (rnd : Nat) (uid : Str) (e : AiError),
      a.offline_mode = false → oracle uid m = Except.error e →
      (process_message a oracle rnd uid m).response = offlineGenericReply) := by
  have hall := is_todo_command_keywords _ h
  have htodo := hall (chars "todo") (by decide)
  have hshow := hall (chars "show") (by decide)
  have hlist := hall (chars "list") (by decide)
  have hview := hall (chars "view") (by decide)
  have hget := hall (chars "get") (by decide)
  have hcomplete := hall (chars "complete") (by decide)
  have hfinish := hall (chars "finish") (by decide)
  have hdone := hall (chars "done") (by decide)
  have hmark := hall (chars "mark") (by decide)
  have hdelete := hall (chars "delete") (by decide)
  have hremove := hall (chars "remove") (by decide)
  have hfb : handle_offline_fallback m = offlineGenericReply := by
    simp [handle_offline_fallback, anyIn, htodo, hshow, hlist, hview, hget,
      hcomplete, hfinish, hdone, hmark, hdelete, hremove]
  refine ⟨hfb, ?_⟩
  intro a oracle rnd uid e hoff herr
  simp [process_message, process_with_ai, h, hoff, herr, hfb]

/-- Claim C10 witness: a concrete non-todo message takes the generic
branch of the offline fallback. -/
theorem offline_fallback_generic_witness :
    handle_offline_fallback (chars "hello there friend") = offlineGenericReply :=
  (offline_fallback_generic (chars "hello there friend") (by decide)).1
